import Mathlib

/-!
Verification development for the crankstart graphics resource layer
(src/graphics.rs, src/display.rs).

The foreign Playdate backend is modelled as oracles: raw handles are
natural numbers with 0 standing for the null pointer, and each backend
entry point is a parameter supplying the handle / message it would
return.  Rust `Result<T, anyhow::Error>` becomes `Except Err T` with
`Err := String` (anyhow errors carry a message).  `Rc<RefCell<_>>`
sharing is modelled by an explicit strong count (for drop behaviour)
and by handle identity (two clones observe the same raw handle).
-/

namespace Crankstart

/-- Raw handle returned by the backend; 0 models the null pointer. -/
abbrev Handle := Nat

/-- Error values are message strings, as carried by anyhow::Error. -/
abbrev Err := String

/-- Model of CString::new's interior-NUL check on a Rust path string. -/
def hasInteriorNul (s : String) : Bool :=
  s.toList.any (fun c => c = Char.ofNat 0)

/-- BitmapInner from src/graphics.rs: the raw bitmap handle plus the flag
saying whether this layer owns (and must free) the native resource. -/
structure BitmapInner where
  raw_bitmap : Handle
  owned : Bool
deriving DecidableEq, Repr

/-- Bitmap is `Rc<RefCell<BitmapInner>>`; clones share the same inner, so
the observable identity of a Bitmap is its inner value. -/
structure Bitmap where
  inner : BitmapInner
deriving DecidableEq, Repr

/-- Bitmap::new wraps a raw handle with the given ownership flag. -/
def Bitmap.new (raw_bitmap : Handle) (owned : Bool) : Bitmap :=
  ⟨⟨raw_bitmap, owned⟩⟩

/-- Bitmap::clone shares the same inner (same handle, same refcount). -/
def Bitmap.clone (b : Bitmap) : Bitmap := b

/-- State of one shared Bitmap allocation: the Rc strong count, and how
many times the native freeBitmap call has run on its handle. -/
structure RcState where
  strong : Nat
  freed : Nat
deriving DecidableEq, Repr

/-- Drop for BitmapInner (graphics.rs lines 252-258): calls the native
freeBitmap exactly when the ownership flag is set. -/
def BitmapInner.dropInner (b : BitmapInner) (freed : Nat) : Nat :=
  if b.owned then freed + 1 else freed

/-- Dropping one shared reference (one clone): Rc decrements the strong
count, and when the last reference goes away it runs BitmapInner's drop. -/
def dropRef (b : BitmapInner) (s : RcState) : RcState :=
  if s.strong = 1 then { strong := 0, freed := b.dropInner s.freed }
  else { strong := s.strong - 1, freed := s.freed }

/-- Dropping k shared references one after another. -/
def dropRefs (b : BitmapInner) (k : Nat) (s : RcState) : RcState :=
  match k with
  | 0 => s
  | k + 1 => dropRefs b k (dropRef b s)

/-- BitmapTableInner from src/graphics.rs: the raw table handle plus the
per-index cache of already-resolved Bitmaps (HashMap modelled as an
association list with unique keys, first match wins). -/
structure BitmapTableInner where
  raw_bitmap_table : Handle
  bitmaps : List (Nat × Bitmap)
deriving DecidableEq, Repr

/-- Lookup in the HashMap cache. -/
def lookupCache : List (Nat × Bitmap) → Nat → Option Bitmap
  | [], _ => none
  | (k, b) :: rest, i => if k = i then some b else lookupCache rest i

/-- BitmapTableInner::get_bitmap (graphics.rs lines 394-413).  The backend
oracle maps (table handle, index) to the raw handle getTableBitmap would
return.  The result triple carries the outcome, the updated table, and how
many backend getTableBitmap calls were made (0 on a cache hit). -/
def BitmapTableInner.get_bitmap (backend : Handle → Nat → Handle)
    (t : BitmapTableInner) (index : Nat) :
    Except Err Bitmap × BitmapTableInner × Nat :=
  match lookupCache t.bitmaps index with
  | some bitmap => (.ok bitmap.clone, t, 0)
  | none =>
    let raw_bitmap := backend t.raw_bitmap_table index
    if raw_bitmap = 0 then
      (.error ("Failed to load bitmap " ++ toString index ++ " from table"),
        t, 1)
    else
      let bitmap := Bitmap.new raw_bitmap true
      (.ok bitmap,
        { t with bitmaps := (index, bitmap.clone) :: t.bitmaps }, 1)

/-- World for BitmapTableInner::load: the abstract content of the native
imagetable behind raw_bitmap_table, plus the wrapper state. -/
structure TableWorld where
  backing : Nat
  table : BitmapTableInner
deriving DecidableEq, Repr

/-- BitmapTableInner::load (graphics.rs lines 415-431): loadIntoBitmapTable
replaces the native backing content, writing newBacking; the wrapper then
reports the optional backend error message.  The cache field is not
touched by this function. -/
def BitmapTableInner.load (path : String) (outErr : Option Err)
    (newBacking : Nat) (w : TableWorld) : Except Err Unit × TableWorld :=
  if hasInteriorNul path then
    (.error "nul byte found in provided data", w)
  else
    let w1 : TableWorld := { w with backing := newBacking }
    match outErr with
    | some msg => (.error msg, w1)
    | none => (.ok (), w1)

/-- BitmapTable wraps the shared inner, as Bitmap does. -/
structure BitmapTable where
  inner : BitmapTableInner
deriving DecidableEq, Repr

/-- BitmapTable::new (graphics.rs lines 452-459): wraps the raw table
handle with an empty cache, with no null check on the handle. -/
def BitmapTable.new (raw_bitmap_table : Handle) : BitmapTable :=
  ⟨⟨raw_bitmap_table, []⟩⟩

/-- Outcome of Graphics::with_context: the returned result, the context
stack after the call (top of the list is the active redirect target), and
whether the operation ran and pop_context was invoked. -/
structure CtxOutcome (T : Type) where
  result : Except Err T
  stack : List Handle
  opRan : Bool
  popInvoked : Bool

/-- Graphics::with_context (graphics.rs lines 547-557): push the target's
raw handle, run f, then pop, returning f's result.  pushRes and popRes
model the Result of the pd_func_caller wrappers around pushContext and
popContext (they fail only when the backend entry is missing, in which
case nothing is pushed or popped). -/
def Graphics.with_context {T : Type} (pushRes popRes : Except Err Unit)
    (stack : List Handle) (target : Handle) (f : Except Err T) :
    CtxOutcome T :=
  match pushRes with
  | .error e =>
    { result := .error e, stack := stack, opRan := false, popInvoked := false }
  | .ok _ =>
    let res := f
    match popRes with
    | .error e =>
      { result := .error e, stack := target :: stack,
        opRan := true, popInvoked := true }
    | .ok _ =>
      { result := res, stack := stack, opRan := true, popInvoked := true }

/-- Graphics::load_bitmap (graphics.rs lines 702-718): the backend
loadBitmap call produced the raw handle and optionally wrote a message
through the out-error pointer. -/
def Graphics.load_bitmap (path : String) (handle : Handle)
    (outErr : Option Err) : Except Err Bitmap :=
  if hasInteriorNul path then .error "nul byte found in provided data"
  else if handle = 0 then
    match outErr with
    | some msg => .error msg
    | none => .error "load_bitmap failed without providing an error message"
  else .ok (Bitmap.new handle true)

/-- Graphics::new_bitmap (graphics.rs lines 684-696): size and color are
passed to the backend newBitmap call, which produced the raw handle. -/
def Graphics.new_bitmap (width height : Int) (handle : Handle) :
    Except Err Bitmap :=
  if handle = 0 then .error "Null pointer returned from new_bitmap"
  else .ok (Bitmap.new handle true)

/-- Graphics::new_bitmap_table (graphics.rs lines 723-732): count and size
go to the backend newBitmapTable call, which produced the raw handle; the
handle is wrapped with no null check. -/
def Graphics.new_bitmap_table (count : Nat) (width height : Int)
    (handle : Handle) : Except Err BitmapTable :=
  .ok (BitmapTable.new handle)

/-- Graphics::load_bitmap_table (graphics.rs lines 738-755). -/
def Graphics.load_bitmap_table (path : String) (handle : Handle)
    (outErr : Option Err) : Except Err BitmapTable :=
  if hasInteriorNul path then .error "nul byte found in provided data"
  else if handle = 0 then
    match outErr with
    | some msg => .error msg
    | none =>
      .error "load_bitmap_table failed without providing an error message"
  else .ok (BitmapTable.new handle)

/-- Font wraps a raw font handle. -/
structure Font where
  ptr : Handle
deriving DecidableEq, Repr

/-- Font::new (graphics.rs lines 370-373): rejects a null handle. -/
def Font.new (f : Handle) : Except Err Font :=
  if f = 0 then .error "Null pointer passed to Font::new" else .ok ⟨f⟩

/-- Graphics::load_font (graphics.rs lines 930-946). -/
def Graphics.load_font (path : String) (handle : Handle)
    (outErr : Option Err) : Except Err Font :=
  if hasInteriorNul path then .error "nul byte found in provided data"
  else if handle = 0 then
    match outErr with
    | some msg => .error msg
    | none => .error "load_font failed without providing an error message"
  else Font.new handle

/-- BitmapInner::duplicate (graphics.rs lines 169-176): copyHandle is what
the backend copyBitmap call returned for self's handle.  The second
component is the post-state of self (taken by shared reference, so it is
returned unchanged). -/
def BitmapInner.duplicate (copyHandle : Handle) (b : BitmapInner) :
    Except Err BitmapInner × BitmapInner :=
  (.ok { raw_bitmap := copyHandle, owned := b.owned }, b)

/-- Backend outcome of one loadIntoBitmap call: whether the decode really
failed inside the backend, and the message (if any) it wrote through the
out-error pointer.  The C entry returns void, so the Rust wrapper observes
only the message.  A written message always indicates a failed decode. -/
structure LoadIntoOutcome where
  decodeFailed : Bool
  outErr : Option Err
deriving DecidableEq, Repr

/-- BitmapInner::load (graphics.rs lines 206-222): reports an error
exactly when the backend wrote a message through the out-error pointer. -/
def BitmapInner.load (path : String) (resp : LoadIntoOutcome) :
    Except Err Unit :=
  if hasInteriorNul path then .error "nul byte found in provided data"
  else
    match resp.outErr with
    | some msg => .error msg
    | none => .ok ()

/-- Build profile: debug_assert is active in debug builds and compiled out
in release builds. -/
inductive BuildProfile
  | debug
  | release
deriving DecidableEq, Repr

/-- Observable outcome of Display::set_mosaic: either the debug assertion
fired (a panic, aborting the caller), or the backend setMosaic entry was
invoked with the given amounts and the function returned Ok. -/
inductive MosaicOutcome
  | panicked (msg : String)
  | calledBackend (x y : Nat)
deriving DecidableEq, Repr

/-- Display::set_mosaic (display.rs lines 58-61): a debug_assert on the
0..=3 range, then the foreign setMosaic call with the amounts as given. -/
def Display.set_mosaic (profile : BuildProfile) (x y : Nat) :
    MosaicOutcome :=
  match profile with
  | .debug =>
    if x ≤ 3 && y ≤ 3 then .calledBackend x y
    else .panicked "valid mosaic x/y values are 0-3 inclusive"
  | .release => .calledBackend x y

/-- Events Graphics::with_context performs on the target bitmap and the
context stack, in program order.  The RefMut produced by
bitmap.inner.borrow_mut() is a temporary of the push_context call
statement: it is acquired before pushContext runs and dropped when that
statement finishes, before the operation f is invoked. -/
inductive CtxEvent
  | borrowMutAcquire
  | pushContext
  | borrowMutRelease
  | runOperation
  | popContext
deriving DecidableEq, Repr

/-- Trace of with_context on the success path (graphics.rs lines 547-557),
following Rust temporary-lifetime rules for the borrow_mut temporary. -/
def with_context_events : List CtxEvent :=
  [.borrowMutAcquire, .pushContext, .borrowMutRelease,
    .runOperation, .popContext]

/-- RefCell borrow flag of the target bitmap. -/
inductive BorrowFlag
  | unused
  | writing
deriving DecidableEq, Repr

/-- Effect of each trace event on the target's RefCell borrow flag. -/
def stepBorrow (flag : BorrowFlag) : CtxEvent → BorrowFlag
  | .borrowMutAcquire => .writing
  | .borrowMutRelease => .unused
  | _ => flag

/-- Borrow flag of the target just before the i-th event of the
with_context trace runs. -/
def borrowFlagBefore (i : Nat) : BorrowFlag :=
  (with_context_events.take i).foldl stepBorrow .unused

/-- RefCell::borrow_mut through another clone succeeds iff no borrow of
the shared inner is outstanding. -/
def tryBorrowMut (flag : BorrowFlag) : Bool :=
  flag = .unused

end Crankstart

namespace Crankstart

/-- Helper: a cache hit returns the cached Bitmap unchanged, leaves the
table unchanged and makes no backend call. -/
theorem get_bitmap_hit (backend : Handle → Nat → Handle)
    (t : BitmapTableInner) (i : Nat) (b : Bitmap)
    (h : lookupCache t.bitmaps i = some b) :
    t.get_bitmap backend i = (.ok b, t, 0) := by
  unfold BitmapTableInner.get_bitmap
  rw [h]
  rfl

/-- Helper: a cache miss with a non-null backend handle returns a fresh
owned Bitmap and caches it under the index. -/
theorem get_bitmap_miss (backend : Handle → Nat → Handle)
    (t : BitmapTableInner) (i : Nat)
    (hmiss : lookupCache t.bitmaps i = none)
    (hraw : backend t.raw_bitmap_table i ≠ 0) :
    t.get_bitmap backend i =
      (.ok (Bitmap.new (backend t.raw_bitmap_table i) true),
        { t with bitmaps :=
            (i, Bitmap.new (backend t.raw_bitmap_table i) true)
              :: t.bitmaps },
        1) := by
  unfold BitmapTableInner.get_bitmap
  rw [hmiss]
  simp [hraw, Bitmap.clone]

/-- Helper: iterating dropRef commutes with peeling one application off
either end. -/
theorem dropRefs_succ (b : BitmapInner) (k : Nat) (s : RcState) :
    dropRefs b (k + 1) s = dropRef b (dropRefs b k s) := by
  induction k generalizing s with
  | zero => rfl
  | succ k ih =>
    show dropRefs b (k + 1) (dropRef b s) = _
    rw [ih]
    rfl

/-- Helper: while more references remain than we drop, nothing is freed:
dropping m references from strong count s with m < s just decrements. -/
theorem dropRefs_no_free (b : BitmapInner) (m : Nat) :
    ∀ s f, m < s → dropRefs b m ⟨s, f⟩ = ⟨s - m, f⟩ := by
  induction m with
  | zero => intro s f _; rfl
  | succ m ih =>
    intro s f hm
    show dropRefs b m (dropRef b ⟨s, f⟩) = _
    have hs1 : s ≠ 1 := by omega
    have hstep : dropRef b ⟨s, f⟩ = ⟨s - 1, f⟩ := by
      simp [dropRef, hs1]
    rw [hstep, ih (s - 1) f (by omega)]
    congr 1
    omega

/-- Helper: dropping every one of n live references frees the native
handle once when owned and never when borrowed. -/
theorem dropRefs_all (b : BitmapInner) (m : Nat) :
    dropRefs b (m + 1) ⟨m + 1, 0⟩ = ⟨0, if b.owned then 1 else 0⟩ := by
  rw [dropRefs_succ, dropRefs_no_free b m (m + 1) 0 (by omega)]
  have h1 : m + 1 - m = 1 := by omega
  rw [h1]
  simp [dropRef, BitmapInner.dropInner]

/-- C1: the native bitmap handle is freed at most once, and only when the
ownership flag is set: after dropping all n shared references of a Bitmap
the free count is exactly 1 when owned and 0 when borrowed, and at every
intermediate point (k ≤ n drops) the free count is at most 1, staying 0
for a borrowed Bitmap. -/
theorem c1_drop_frees_iff_owned (b : BitmapInner) (n k : Nat)
    (hn : 0 < n) (hk : k ≤ n) :
    (dropRefs b n ⟨n, 0⟩).freed = (if b.owned then 1 else 0) ∧
    (dropRefs b k ⟨n, 0⟩).freed ≤ 1 ∧
    (b.owned = false → (dropRefs b k ⟨n, 0⟩).freed = 0) := by
  obtain ⟨m, rfl⟩ : ∃ m, n = m + 1 := ⟨n - 1, by omega⟩
  have hfull := dropRefs_all b m
  refine ⟨by rw [hfull], ?_, ?_⟩
  · rcases Nat.lt_or_ge k (m + 1) with hlt | hge
    · rw [dropRefs_no_free b k (m + 1) 0 hlt]
      exact Nat.zero_le 1
    · have hkeq : k = m + 1 := by omega
      subst hkeq
      rw [hfull]
      split <;> simp
  · intro hb
    rcases Nat.lt_or_ge k (m + 1) with hlt | hge
    · rw [dropRefs_no_free b k (m + 1) 0 hlt]
    · have hkeq : k = m + 1 := by omega
      subst hkeq
      rw [hfull]
      simp [hb]

/-- Witness for C1 at a concrete owned bitmap with 3 references. -/
theorem c1_witness :
    (dropRefs ⟨5, true⟩ 3 ⟨3, 0⟩).freed = (if true then 1 else 0) ∧
    (dropRefs ⟨5, true⟩ 2 ⟨3, 0⟩).freed ≤ 1 ∧
    ((true : Bool) = false → (dropRefs ⟨5, true⟩ 2 ⟨3, 0⟩).freed = 0) :=
  c1_drop_frees_iff_owned ⟨5, true⟩ 3 2 (by decide) (by decide)

/-- C2: get_bitmap on a cached index returns the cached Bitmap by shared
clone with no backend call and no table change; on a miss it calls the
backend once, fails when the backend hands back a null handle, and
otherwise caches and returns a new owned Bitmap; and a second get_bitmap
after any successful one returns a Bitmap of the same underlying handle
identity. -/
theorem c2_get_bitmap_cached_identity (backend : Handle → Nat → Handle)
    (t : BitmapTableInner) (i : Nat) :
    (∀ b, lookupCache t.bitmaps i = some b →
      t.get_bitmap backend i = (.ok b, t, 0)) ∧
    (lookupCache t.bitmaps i = none → backend t.raw_bitmap_table i = 0 →
      ∃ e, (t.get_bitmap backend i).1 = .error e) ∧
    (lookupCache t.bitmaps i = none → backend t.raw_bitmap_table i ≠ 0 →
      t.get_bitmap backend i =
        (.ok (Bitmap.new (backend t.raw_bitmap_table i) true),
          { t with bitmaps :=
              (i, Bitmap.new (backend t.raw_bitmap_table i) true)
                :: t.bitmaps },
          1)) ∧
    (∀ b t1 n1, t.get_bitmap backend i = (.ok b, t1, n1) →
      t1.get_bitmap backend i = (.ok b, t1, 0)) := by
  refine ⟨?_, ?_, ?_, ?_⟩
  · intro b h
    exact get_bitmap_hit backend t i b h
  · intro hmiss hraw
    refine ⟨"Failed to load bitmap " ++ toString i ++ " from table", ?_⟩
    unfold BitmapTableInner.get_bitmap
    rw [hmiss]
    simp [hraw]
  · intro hmiss hraw
    exact get_bitmap_miss backend t i hmiss hraw
  · intro b t1 n1 hcall
    cases hcache : lookupCache t.bitmaps i with
    | some b0 =>
      rw [get_bitmap_hit backend t i b0 hcache] at hcall
      simp only [Prod.mk.injEq, Except.ok.injEq] at hcall
      obtain ⟨rfl, rfl, rfl⟩ := hcall
      exact get_bitmap_hit backend t i b0 hcache
    | none =>
      by_cases hraw : backend t.raw_bitmap_table i = 0
      · unfold BitmapTableInner.get_bitmap at hcall
        rw [hcache] at hcall
        simp [hraw] at hcall
      · rw [get_bitmap_miss backend t i hcache hraw] at hcall
        simp only [Prod.mk.injEq, Except.ok.injEq] at hcall
        obtain ⟨rfl, rfl, rfl⟩ := hcall
        apply get_bitmap_hit
        simp [lookupCache, Bitmap.clone]

/-- Witness for C2 at a concrete table whose cache holds index 0. -/
theorem c2_witness :
    BitmapTableInner.get_bitmap (fun _ _ => 9) ⟨7, [(0, ⟨⟨5, true⟩⟩)]⟩ 0
      = (.ok ⟨⟨5, true⟩⟩, ⟨7, [(0, ⟨⟨5, true⟩⟩)]⟩, 0) :=
  (c2_get_bitmap_cached_identity (fun _ _ => 9) ⟨7, [(0, ⟨⟨5, true⟩⟩)]⟩ 0).1
    ⟨⟨5, true⟩⟩ rfl

/-- C3: with_context pushes the target, runs the operation, and invokes
pop_context on every exit path of the operation, including when the
operation returns a failure; when the push itself fails the operation is
not run and the push failure is propagated; and with both backend entries
present a matched push/pop returns the context stack to its baseline
while the operation's own result (success or failure) is returned. -/
theorem c3_with_context_pops_on_all_paths {T : Type}
    (pushRes popRes : Except Err Unit) (stack : List Handle)
    (target : Handle) (f : Except Err T) :
    (∀ e, pushRes = .error e →
      Graphics.with_context pushRes popRes stack target f =
        ⟨.error e, stack, false, false⟩) ∧
    (pushRes = .ok () →
      (Graphics.with_context pushRes popRes stack target f).popInvoked
          = true ∧
      (Graphics.with_context pushRes popRes stack target f).opRan = true) ∧
    (pushRes = .ok () → popRes = .ok () →
      Graphics.with_context pushRes popRes stack target f =
        ⟨f, stack, true, true⟩) := by
  refine ⟨?_, ?_, ?_⟩
  · intro e he
    subst he
    rfl
  · intro hp
    subst hp
    cases popRes <;> simp [Graphics.with_context]
  · intro hp hq
    subst hp
    subst hq
    rfl

/-- Witness for C3: a failing operation still gets its pop, and its
failure is returned once the stack is restored. -/
theorem c3_witness :
    Graphics.with_context (T := Nat) (.ok ()) (.ok ()) [] 5 (.error "boom")
      = ⟨.error "boom", [], true, true⟩ :=
  (c3_with_context_pops_on_all_paths (.ok ()) (.ok ()) [] 5
    (.error "boom")).2.2 rfl rfl

/-- C4: BitmapTable load replaces the native table's backing content but
leaves the per-index cache untouched: the wrapper state after load has
the cache it had before, a successful load reports Ok, and every index
that was cached before still resolves through get_bitmap to the very same
Bitmap identity afterwards. -/
theorem c4_table_load_keeps_cache (path : String) (outErr : Option Err)
    (newBacking : Nat) (w : TableWorld)
    (hp : hasInteriorNul path = false) :
    ((BitmapTableInner.load path outErr newBacking w).2.table = w.table) ∧
    ((BitmapTableInner.load path outErr newBacking w).2.backing
      = newBacking) ∧
    (outErr = none →
      (BitmapTableInner.load path outErr newBacking w).1 = .ok ()) ∧
    (∀ backend i b, lookupCache w.table.bitmaps i = some b →
      BitmapTableInner.get_bitmap backend
          (BitmapTableInner.load path outErr newBacking w).2.table i
        = (.ok b,
            (BitmapTableInner.load path outErr newBacking w).2.table, 0)) := by
  have htab : (BitmapTableInner.load path outErr newBacking w).2.table
      = w.table := by
    unfold BitmapTableInner.load
    rw [hp]
    cases outErr <;> rfl
  have hback : (BitmapTableInner.load path outErr newBacking w).2.backing
      = newBacking := by
    unfold BitmapTableInner.load
    rw [hp]
    cases outErr <;> rfl
  refine ⟨htab, hback, ?_, ?_⟩
  · intro hnone
    subst hnone
    unfold BitmapTableInner.load
    rw [hp]
    rfl
  · intro backend i b hcached
    rw [htab]
    exact get_bitmap_hit backend w.table i b hcached

/-- Witness for C4 at a table whose cache holds index 2, reloaded with
fresh backing content 9. -/
theorem c4_witness :
    ((BitmapTableInner.load "tiles" none 9
        ⟨1, ⟨7, [(2, ⟨⟨5, true⟩⟩)]⟩⟩).2.table = ⟨7, [(2, ⟨⟨5, true⟩⟩)]⟩) ∧
    ((BitmapTableInner.load "tiles" none 9
        ⟨1, ⟨7, [(2, ⟨⟨5, true⟩⟩)]⟩⟩).2.backing = 9) ∧
    ((none : Option Err) = none →
      (BitmapTableInner.load "tiles" none 9
        ⟨1, ⟨7, [(2, ⟨⟨5, true⟩⟩)]⟩⟩).1 = .ok ()) ∧
    (∀ backend i b,
      lookupCache (⟨1, ⟨7, [(2, ⟨⟨5, true⟩⟩)]⟩⟩ : TableWorld).table.bitmaps i
        = some b →
      BitmapTableInner.get_bitmap backend
          (BitmapTableInner.load "tiles" none 9
            ⟨1, ⟨7, [(2, ⟨⟨5, true⟩⟩)]⟩⟩).2.table i
        = (.ok b,
            (BitmapTableInner.load "tiles" none 9
              ⟨1, ⟨7, [(2, ⟨⟨5, true⟩⟩)]⟩⟩).2.table, 0)) :=
  c4_table_load_keeps_cache "tiles" none 9 ⟨1, ⟨7, [(2, ⟨⟨5, true⟩⟩)]⟩⟩ rfl

/-- C5: when the backend loadBitmap call hands back a null handle,
load_bitmap fails, with the backend message when present and a generic
message otherwise; load_bitmap never returns a Bitmap wrapping a null
handle; and a non-null handle yields an owned Bitmap around it. -/
theorem c5_load_bitmap_null_fails (path : String) (handle : Handle)
    (outErr : Option Err) (hp : hasInteriorNul path = false) :
    (handle = 0 → Graphics.load_bitmap path handle outErr =
      .error (match outErr with
        | some msg => msg
        | none => "load_bitmap failed without providing an error message")) ∧
    (∀ b, Graphics.load_bitmap path handle outErr = .ok b →
      b.inner.raw_bitmap ≠ 0 ∧ b.inner.owned = true) ∧
    (handle ≠ 0 →
      Graphics.load_bitmap path handle outErr
        = .ok (Bitmap.new handle true)) := by
  unfold Graphics.load_bitmap
  rw [hp]
  simp only [Bool.false_eq_true, if_false]
  refine ⟨?_, ?_, ?_⟩
  · intro h0
    subst h0
    simp
    cases outErr <;> rfl
  · intro b hb
    by_cases h0 : handle = 0
    · subst h0
      simp at hb
      cases outErr <;> simp at hb
    · simp [h0] at hb
      subst hb
      exact ⟨h0, rfl⟩
  · intro h0
    simp [h0]

/-- Witness for C5: a null handle with no backend message produces the
generic failure message. -/
theorem c5_witness :
    Graphics.load_bitmap "missing.png" 0 none =
      .error (match (none : Option Err) with
        | some msg => msg
        | none => "load_bitmap failed without providing an error message") :=
  (c5_load_bitmap_null_fails "missing.png" 0 none rfl).1 rfl

/-- C7: duplicate returns a new BitmapInner whose raw handle is exactly
what the backend copyBitmap call produced and whose ownership flag equals
the source's flag, while the source itself is unchanged; when the backend
copy is a fresh handle, the copy's handle differs from the source's. -/
theorem c7_duplicate_mirrors_ownership (copyHandle : Handle)
    (b : BitmapInner) (hfresh : copyHandle ≠ b.raw_bitmap) :
    ((BitmapInner.duplicate copyHandle b).1
      = .ok ⟨copyHandle, b.owned⟩) ∧
    ((BitmapInner.duplicate copyHandle b).2 = b) ∧
    (∀ r, (BitmapInner.duplicate copyHandle b).1 = .ok r →
      r.raw_bitmap ≠ b.raw_bitmap ∧ r.owned = b.owned) := by
  refine ⟨rfl, rfl, ?_⟩
  intro r hr
  have : (⟨copyHandle, b.owned⟩ : BitmapInner) = r := by
    have h1 : (Except.ok (⟨copyHandle, b.owned⟩ : BitmapInner) : Except Err _)
        = .ok r := hr
    simpa using h1
  subst this
  exact ⟨hfresh, rfl⟩

/-- Witness for C7: duplicating a borrowed bitmap with handle 5, the
backend copy returning handle 6, keeps the borrowed flag. -/
theorem c7_witness :
    ((BitmapInner.duplicate 6 ⟨5, false⟩).1 = .ok ⟨6, false⟩) ∧
    ((BitmapInner.duplicate 6 ⟨5, false⟩).2 = ⟨5, false⟩) ∧
    (∀ r, (BitmapInner.duplicate 6 ⟨5, false⟩).1 = .ok r →
      r.raw_bitmap ≠ (⟨5, false⟩ : BitmapInner).raw_bitmap ∧
      r.owned = (⟨5, false⟩ : BitmapInner).owned) :=
  c7_duplicate_mirrors_ownership 6 ⟨5, false⟩ (by decide)

/-- C8 counterexample: a decode failure in which the backend writes no
message through the out-error pointer is reported by BitmapInner::load as
success Ok, not as a generic failure — the claim that a failed decode is
never reported as success is false at this input. -/
theorem c8_counterexample :
    (LoadIntoOutcome.mk true none).decodeFailed = true ∧
    BitmapInner.load "sprite.png" ⟨true, none⟩ = .ok () := by
  exact ⟨rfl, rfl⟩

/-- C8 (amended): the instance-level load reports a failure carrying the
backend message exactly when the backend writes one; when no message is
written it reports success, even when the decode actually failed — a
messageless decode failure is invisible through the loadIntoBitmap
interface, so no generic failure is produced. -/
theorem c8_load_reports_message_only (path : String)
    (resp : LoadIntoOutcome) (hp : hasInteriorNul path = false) :
    (∀ msg, resp.outErr = some msg →
      BitmapInner.load path resp = .error msg) ∧
    (resp.outErr = none → BitmapInner.load path resp = .ok ()) ∧
    (resp.decodeFailed = true → resp.outErr = none →
      BitmapInner.load path resp = .ok ()) := by
  unfold BitmapInner.load
  rw [hp]
  refine ⟨?_, ?_, ?_⟩
  · intro msg hmsg
    rw [hmsg]
    rfl
  · intro hnone
    rw [hnone]
    rfl
  · intro _ hnone
    rw [hnone]
    rfl

/-- Witness for C8 (amended): a backend message is propagated verbatim. -/
theorem c8_witness :
    BitmapInner.load "sprite.png" ⟨true, some "decode failure"⟩
      = .error "decode failure" :=
  (c8_load_reports_message_only "sprite.png" ⟨true, some "decode failure"⟩
    rfl).1 "decode failure" rfl

/-- C9 counterexample: in a release build, set_mosaic with the
out-of-range amount (4, 4) invokes the backend with those very values and
returns Ok — the out-of-range input is passed straight through, and no
InvalidArgument failure is surfaced to the caller. -/
theorem c9_counterexample :
    Display.set_mosaic .release 4 4 = .calledBackend 4 4 := rfl

/-- C9 (amended): set_mosaic guards the documented 0..=3 range only with
a debug-only assertion: in a debug build an out-of-range amount panics
before the foreign call; in a release build every amount, in range or
not, is passed unchecked to the backend setMosaic call; in-range amounts
always reach the backend; no error value is ever returned for the range. -/
theorem c9_set_mosaic_debug_assert_only (profile : BuildProfile)
    (x y : Nat) :
    (profile = .debug → (3 < x ∨ 3 < y) →
      Display.set_mosaic profile x y
        = .panicked "valid mosaic x/y values are 0-3 inclusive") ∧
    (profile = .release →
      Display.set_mosaic profile x y = .calledBackend x y) ∧
    (x ≤ 3 → y ≤ 3 →
      Display.set_mosaic profile x y = .calledBackend x y) := by
  refine ⟨?_, ?_, ?_⟩
  · intro hprof hout
    subst hprof
    unfold Display.set_mosaic
    have hcond : (x ≤ 3 && y ≤ 3) = false := by
      rcases hout with hx | hy
      · simp [Nat.not_le.mpr hx]
      · simp [Nat.not_le.mpr hy]
    rw [hcond]
    rfl
  · intro hprof
    subst hprof
    rfl
  · intro hx hy
    cases profile with
    | release => rfl
    | debug =>
      unfold Display.set_mosaic
      have hcond : (x ≤ 3 && y ≤ 3) = true := by
        simp [hx, hy]
      rw [hcond]
      rfl

/-- Witness for C9 (amended): in a debug build the out-of-range amount
(0, 7) fires the assertion. -/
theorem c9_witness :
    Display.set_mosaic .debug 0 7
      = .panicked "valid mosaic x/y values are 0-3 inclusive" :=
  (c9_set_mosaic_debug_assert_only .debug 0 7).1 rfl (Or.inr (by decide))

/-- C10: new_bitmap_table wraps whatever raw table handle the backend
produced in Ok with no null check — a null handle still yields Ok —
whereas new_bitmap, load_bitmap_table and load_font all reject a null
backend handle with an error. -/
theorem c10_new_bitmap_table_skips_null_check (count : Nat)
    (width height : Int) (path : String) (outErr : Option Err)
    (hp : hasInteriorNul path = false) :
    (∀ handle, Graphics.new_bitmap_table count width height handle
      = .ok (BitmapTable.new handle)) ∧
    (Graphics.new_bitmap_table count width height 0
      = .ok (BitmapTable.new 0)) ∧
    (∃ e, Graphics.new_bitmap width height 0 = .error e) ∧
    (∃ e, Graphics.load_bitmap_table path 0 outErr = .error e) ∧
    (∃ e, Graphics.load_font path 0 outErr = .error e) := by
  refine ⟨fun _ => rfl, rfl, ⟨_, rfl⟩, ?_, ?_⟩
  · unfold Graphics.load_bitmap_table
    rw [hp]
    cases outErr with
    | some msg => exact ⟨msg, rfl⟩
    | none => exact ⟨_, rfl⟩
  · unfold Graphics.load_font
    rw [hp]
    cases outErr with
    | some msg => exact ⟨msg, rfl⟩
    | none => exact ⟨_, rfl⟩

/-- Witness for C10 at concrete arguments: a null table handle from the
backend is wrapped in Ok, while the checked factories fail on null. -/
theorem c10_witness :
    (∀ handle, Graphics.new_bitmap_table 4 32 32 handle
      = .ok (BitmapTable.new handle)) ∧
    (Graphics.new_bitmap_table 4 32 32 0 = .ok (BitmapTable.new 0)) ∧
    (∃ e, Graphics.new_bitmap 32 32 0 = .error e) ∧
    (∃ e, Graphics.load_bitmap_table "table.png" 0 none = .error e) ∧
    (∃ e, Graphics.load_font "font.fnt" 0 none = .error e) := by
  have h1 := c10_new_bitmap_table_skips_null_check 4 32 32 "table.png"
    none rfl
  have h2 := c10_new_bitmap_table_skips_null_check 4 32 32 "font.fnt"
    none rfl
  exact ⟨h1.1, h1.2.1, h1.2.2.1, h1.2.2.2.1, h2.2.2.2.2⟩

/-- C6: the exclusive borrow with_context takes on the target bitmap is a
temporary of the push_context statement, released before the operation
runs (trace position 3 is the operation): at that point the target's
borrow flag is back to unused, so a mutable borrow through another clone
of the same bitmap succeeds while the bitmap is the active draw target —
exclusive access is not held for the duration of the redirect scope. -/
theorem c6_borrow_released_before_operation :
    with_context_events[3]? = some .runOperation ∧
    borrowFlagBefore 3 = .unused ∧
    tryBorrowMut (borrowFlagBefore 3) = true := ⟨rfl, rfl, rfl⟩

end Crankstart
